import Mathlib

/-!
Verification development for the html2ppt live-preview core.

The definitions below are shallow embeddings of the TypeScript sources:

* `src/vue-preview-service/src/VuePreview.ts` — the frontmatter/content
  splitter (`parseSlidevRegex`), the preview state (`PreviewState`,
  `cleanupPreview`) and the render entry point (`renderVueComponent`);
* `src/frontend/src/components/VuePreview.tsx` — the SFC compile/mount
  path (`mountPreview`, `run`, `updateScale`, the uno-style step and the
  effect cleanup);
* the preview bootstrap module (`src/unnamed/part_013`) — the transport
  adapter (`decodeBase64`, `getCodeFromUrl`, `parseComponentsPayload`,
  `normalizeComponents`, the message listener) and the adaptive-scale
  scheduler (`scheduleAdaptiveScale`, `applyAdaptiveScale`).

External platform/library primitives (`String.prototype.split` on the
separator regex, `js-yaml`'s `load`, `atob`, `TextDecoder`, `JSON.parse`)
are modelled as executable Lean functions faithful to their behaviour on
the value domains the embedded code exercises.
-/

/-! ## Frontmatter/content splitter (`parseSlidevRegex`) -/

/-- Scalar YAML values occurring in the frontmatter mappings this code
base feeds to `yaml.load`: strings and integers. -/
inductive YamlScalar where
  | str (s : String)
  | int (n : Int)
  deriving DecidableEq, Repr

/-- The YAML value domain produced by `yaml.load` on the subset this
code base exercises: a top-level scalar (e.g. a plain one-line string)
or a one-level mapping of scalars. -/
inductive Yaml where
  | scalar (v : YamlScalar)
  | map (entries : List (String × YamlScalar))
  deriving DecidableEq, Repr

/-- JS `doc && typeof doc === 'object'` truthiness-and-type test used by
the splitter to classify a parsed block as frontmatter: mappings are
truthy objects, scalars are not objects. -/
def Yaml.isTruthyObject : Yaml → Bool
  | .map _ => true
  | _ => false

/-- `markdown.replace(/\r\n/g, '\n')` — global left-to-right replacement
of CRLF by LF. -/
def normalizeNewlines : List Char → List Char
  | '\r' :: '\n' :: rest => '\n' :: normalizeNewlines rest
  | c :: rest => c :: normalizeNewlines rest
  | [] => []

/-- The scanning core of `normalized.split(/(?:^|\n)---\n/)` after the
start-of-string case has been handled: a match is the five characters
`"\n---\n"`, matches are found left to right and are non-overlapping,
and the text between consecutive matches forms one part. `acc` holds
the characters of the part currently being accumulated. -/
def splitGo : List Char → List Char → List String
  | '\n' :: '-' :: '-' :: '-' :: '\n' :: rest, acc =>
      String.mk acc :: splitGo rest []
  | c :: rest, acc => splitGo rest (acc ++ [c])
  | [], acc => [String.mk acc]

/-- `normalized.split(/(?:^|\n)---\n/)`: the `^` alternative (no `m`
flag) can only match at position 0, contributing a leading empty part
when the document begins with a `---` line. -/
def splitParts (s : List Char) : List String :=
  match s with
  | '-' :: '-' :: '-' :: '\n' :: rest => "" :: splitGo rest []
  | other => splitGo other []

/-- Character-level whitespace test backing the `trim` calls of the
embedded code. -/
def isWsChar (c : Char) : Bool :=
  c = ' ' || c = '\t' || c = '\n' || c = '\r'

/-- `String.prototype.trim` on the character list of a string. -/
def trimChars (cs : List Char) : List Char :=
  ((cs.dropWhile isWsChar).reverse.dropWhile isWsChar).reverse

/-- Splits a character list into its `'\n'`-separated lines. -/
def splitLinesChar : List Char → List (List Char)
  | [] => [[]]
  | '\n' :: rest => [] :: splitLinesChar rest
  | c :: rest =>
      match splitLinesChar rest with
      | l :: ls => (c :: l) :: ls
      | [] => [[c]]

/-- Numeric value of a digit list (used for integer YAML scalars),
most significant digit first. -/
def digitsToNatAux (acc : Nat) : List Char → Nat
  | [] => acc
  | c :: rest => digitsToNatAux (acc * 10 + (c.toNat - 48)) rest

/-- Numeric value of a digit list. -/
def digitsToNat (cs : List Char) : Nat :=
  digitsToNatAux 0 cs

/-- Splits a raw line at its first `':'`, the shape `js-yaml` reads as a
single mapping entry in the frontmatter blocks this project produces. -/
def splitFirstColon : List Char → Option (List Char × List Char)
  | [] => none
  | ':' :: rest => some ([], rest)
  | c :: rest =>
      match splitFirstColon rest with
      | some (k, v) => some (c :: k, v)
      | none => none

/-- Parses one `key: value` line into a mapping entry; the value is an
integer scalar when it is all digits, otherwise a string scalar. -/
def yamlEntryOfLine (line : List Char) : Option (String × YamlScalar) :=
  match splitFirstColon line with
  | none => none
  | some (k, v) =>
      let key := String.mk (trimChars k)
      let value := trimChars v
      if value.length > 0 && value.all Char.isDigit then
        some (key, YamlScalar.int (Int.ofNat (digitsToNat value)))
      else
        some (key, YamlScalar.str (String.mk value))

/-- Model of `yaml.load` on the subset exercised by the splitter: a
block of non-blank `key: value` lines parses to a mapping, a single
non-blank line without a colon parses to a plain string scalar, and
anything else (including the empty block) is treated as a parse
failure, which the caller's `try`/`catch` turns into "not
frontmatter". -/
def yamlLoad (s : List Char) : Option Yaml :=
  let lines := (splitLinesChar s).filter (fun l => !(trimChars l).isEmpty)
  match lines.mapM yamlEntryOfLine with
  | some entries => if lines.isEmpty then none else some (Yaml.map entries)
  | none =>
      match lines with
      | [l] =>
          if l.contains ':' then none
          else some (Yaml.scalar (.str (String.mk (trimChars l))))
      | _ => none


/-- One emitted slide record: `{ frontmatter, content }`. -/
structure Slide where
  frontmatter : Yaml
  content : String
  deriving DecidableEq, Repr

/-- The splitter's frontmatter test on one part: `part.includes(':')`,
then `yaml.load(part)` under `try`/`catch`, then
`doc && typeof doc === 'object'`. Returns the parsed mapping when the
part is classified as frontmatter, `none` when it is content. -/
def classifyPart (part : String) : Option Yaml :=
  if part.data.contains ':' then
    match yamlLoad part.data with
    | some doc => if doc.isTruthyObject then some doc else none
    | none => none
  else none

/-- The `parts.forEach` loop of `parseSlidevRegex` that builds
`resultSlides`: a frontmatter-classified part becomes the pending
frontmatter for the next part; every other part — whitespace-only parts
included — is pushed as a slide carrying the pending frontmatter, which
is then reset to the empty mapping. -/
def refinedLoop : List String → Yaml → List Slide
  | [], _ => []
  | part :: rest, pending =>
      match classifyPart part with
      | some doc => refinedLoop rest doc
      | none => ⟨pending, part⟩ :: refinedLoop rest (Yaml.map [])

/-- `parseSlidevRegex`: normalize newlines, split on the separator
regex, then run the result-building loop with an initially empty
pending frontmatter. (The function's first accumulation pass builds a
local `slides` array that is never returned; only the `resultSlides`
loop is observable.) -/
def parseSlidevRegex (markdown : String) : List Slide :=
  refinedLoop (splitParts (normalizeNewlines markdown.data)) (Yaml.map [])

/-- Delimiter-separated blocks of a document, as the spec counts them:
the parts produced by the separator split. -/
def documentBlocks (markdown : String) : List String :=
  splitParts (normalizeNewlines markdown.data)

/-- Blocks that are non-whitespace and not classified as frontmatter —
the blocks the spec says become slides. -/
def contentBlockCount (markdown : String) : Nat :=
  ((documentBlocks markdown).filter
    (fun p => !(trimChars p.data).isEmpty && (classifyPart p).isNone)).length

/-! ## Preview state and render entry point (`VuePreview.ts`) -/

/-- `PreviewState`: the mutable preview state holds at most the handle
of the currently mounted app. App handles are modelled as numeric
identities so that distinct app instances can be told apart. -/
structure PreviewState where
  app : Option Nat
  deriving DecidableEq, Repr

/-- Observable actions performed by `cleanupPreview` and
`renderVueComponent`, in program order. -/
inductive RenderEvent where
  | unmountApp (id : Nat)
  | clearMountEl
  | throwNoContent
  | parseDoc
  | createApp (id : Nat)
  | mountApp (id : Nat)
  deriving DecidableEq, Repr

/-- Disposal actions: unmounting the previous app instance and clearing
the mount element. -/
def RenderEvent.isDispose : RenderEvent → Bool
  | .unmountApp _ => true
  | .clearMountEl => true
  | _ => false

/-- `cleanupPreview(state, mountEl)`: unmount the app if one is held
(and null the handle), then clear the mount element if present.
Returns the new state paired with the actions performed. -/
def cleanupPreview (st : PreviewState) (mountElPresent : Bool) :
    PreviewState × List RenderEvent :=
  let stepApp : PreviewState × List RenderEvent :=
    match st.app with
    | some id => (⟨none⟩, [.unmountApp id])
    | none => (st, [])
  (stepApp.1, stepApp.2 ++ (if mountElPresent then [.clearMountEl] else []))

/-- `renderVueComponent(code, containerEl, mountEl, state)`: cleanup of
the previous state comes first and unconditionally; then the
empty-content guard; then parse, app creation and mount. `freshId` is
the identity of the app instance `createApp` would produce. The result
is the new state, the performed actions in order, and the error thrown
(if any). -/
def renderVueComponent (code : String) (st : PreviewState) (freshId : Nat) :
    PreviewState × List RenderEvent × Option String :=
  let cleaned := cleanupPreview st true
  if (trimChars code.data).isEmpty then
    (cleaned.1, cleaned.2 ++ [.throwNoContent], some "No content provided.")
  else
    (⟨some freshId⟩,
     cleaned.2 ++ [.parseDoc, .createApp freshId, .mountApp freshId],
     none)

/-! ## Adaptive-scale scheduling (preview bootstrap module) -/

/-- State of the animation-frame scheduler around
`scheduleAdaptiveScale`: `pendingFrame` is the module-level
`adaptiveScaleFrame` handle, `registered` the identifiers of
requested-and-not-yet-cancelled animation-frame callbacks, `applied`
the number of synchronous `applyAdaptiveScale` runs so far, and
`nextId` the next handle `requestAnimationFrame` would hand out. -/
structure SchedState where
  pendingFrame : Option Nat
  registered : List Nat
  applied : Nat
  nextId : Nat
  deriving DecidableEq, Repr

/-- `scheduleAdaptiveScale(containerEl)`: cancel the pending
animation-frame callback if there is one, then request a fresh one and
remember its handle. No rescale is applied synchronously here. -/
def scheduleAdaptiveScale (s : SchedState) : SchedState :=
  let s1 :=
    match s.pendingFrame with
    | some id => { s with registered := s.registered.erase id, pendingFrame := none }
    | none => s
  { s1 with
      pendingFrame := some s1.nextId
      registered := s1.registered ++ [s1.nextId]
      nextId := s1.nextId + 1 }

/-- The animation-frame callback registered by `scheduleAdaptiveScale`:
clear the `adaptiveScaleFrame` handle, then run `applyAdaptiveScale`. -/
def runAdaptiveFrame (s : SchedState) : SchedState :=
  match s.pendingFrame with
  | some id =>
      { s with
          pendingFrame := none
          registered := s.registered.erase id
          applied := s.applied + 1 }
  | none => s

/-- `n` consecutive observer-callback triggers, each of which calls
`scheduleAdaptiveScale`. -/
def triggerN : Nat → SchedState → SchedState
  | 0, s => s
  | n + 1, s => triggerN n (scheduleAdaptiveScale s)

/-- Well-formedness of the scheduler state: the registered callbacks
are exactly the pending one (if any), and all issued handles are below
`nextId`. -/
def SchedInv (s : SchedState) : Prop :=
  (s.registered = match s.pendingFrame with
    | some id => [id]
    | none => []) ∧
  (∀ id ∈ s.registered, id < s.nextId)

/-! ## Rescale computations -/

/-- `applyAdaptiveScale` per target (preview bootstrap module): skip
when either available dimension or either natural content dimension is
zero; otherwise set `transform: scale(fitScale)` with
`fitScale = Math.min(1, availableWidth/contentWidth,
availableHeight/contentHeight)` — a single factor used for both axes.
The result is the `(x, y)` scale pair applied, or `none` when the
target is skipped. Dimensions are modelled as rationals. -/
def applyAdaptiveScale (availableWidth availableHeight contentWidth contentHeight : ℚ) :
    Option (ℚ × ℚ) :=
  if availableWidth = 0 ∨ availableHeight = 0 then none
  else if contentWidth = 0 ∨ contentHeight = 0 then none
  else
    let fitScale := min 1 (min (availableWidth / contentWidth)
      (availableHeight / contentHeight))
    some (fitScale, fitScale)

/-- Fixed slide design width used by the frontend preview
(`SLIDE_WIDTH`). -/
def SLIDE_WIDTH : ℚ := 1920

/-- Fixed slide design height used by the frontend preview
(`SLIDE_HEIGHT`). -/
def SLIDE_HEIGHT : ℚ := 1080

/-- `updateScale` (frontend `VuePreview.tsx`): skip when the container
rect has a zero dimension; otherwise apply
`scale = Math.min(width / SLIDE_WIDTH, height / SLIDE_HEIGHT)` as a
single factor for both axes (no clamp against 1). -/
def updateScale (width height : ℚ) : Option (ℚ × ℚ) :=
  if width = 0 ∨ height = 0 then none
  else
    let scale := min (width / SLIDE_WIDTH) (height / SLIDE_HEIGHT)
    some (scale, scale)

/-! ## Frontend SFC compile/mount path (`VuePreview.tsx`) -/

/-- The parsed SFC descriptor produced by `@vue/compiler-sfc`'s `parse`:
optional template content, optional script / script-setup sections and
the style sections' literal text. -/
structure SFCDescriptor where
  template : Option String
  script : Option String
  scriptSetup : Option String
  styles : List String
  deriving DecidableEq, Repr

/-- Observable actions of `mountPreview`, in program order. -/
inductive MountEvent where
  | compileScriptStep
  | compileTemplateStep
  | injectSfcStyle
  | createAppStep
  | mountAppStep
  | observeResize
  | awaitUnoStyles
  deriving DecidableEq, Repr

/-- Outcomes of the external compilation primitives for one source:
whether `compileScript`/`new Function` over the script section throws
(with which message), and the `errors` array of `compileTemplate`.
These are inputs of the embedding, universally quantified in the
theorems. -/
structure CompileOutcome where
  scriptThrow : Option String
  templateErrors : List String
  deriving DecidableEq, Repr

/-- `mountPreview` in the frontend component: parse the descriptor,
fail on a missing/blank template, compile the optional script, compile
the template, inject the SFC style text, create and mount the app,
start observing and await the uno style generation. Returns the
actions performed before returning or throwing, paired with the thrown
error message (if any). -/
def mountPreview (d : SFCDescriptor) (oc : CompileOutcome) :
    List MountEvent × Option String :=
  let template := match d.template with
    | some c => String.mk (trimChars c.data)
    | none => ""
  if template = "" then ([], some "Missing <template> block.")
  else
    let hasScript := d.script.isSome || d.scriptSetup.isSome
    let scriptEvents := if hasScript then [MountEvent.compileScriptStep] else []
    match oc.scriptThrow, hasScript with
    | some msg, true => (scriptEvents, some msg)
    | _, _ =>
      match oc.templateErrors with
      | e :: _ => (scriptEvents ++ [MountEvent.compileTemplateStep], some e)
      | [] =>
          let styleEvents := if d.styles.isEmpty then [] else [MountEvent.injectSfcStyle]
          (scriptEvents ++ [MountEvent.compileTemplateStep] ++ styleEvents ++
            [MountEvent.createAppStep, MountEvent.mountAppStep,
             MountEvent.observeResize, MountEvent.awaitUnoStyles], none)

/-- What the component ends up showing in the mount area. -/
inductive ViewState where
  | errorShown (message : String)
  | previewShown
  deriving DecidableEq, Repr

/-- The `run` wrapper of the effect: clear the mount element, call
`mountPreview`, and catch any thrown error into the `error` state
(the component then renders the error message instead of the preview).
Totality of this function is the embedding of "no exception escapes the
component's public boundary". -/
def runEffect (d : SFCDescriptor) (oc : CompileOutcome) :
    ViewState × List MountEvent :=
  match mountPreview d oc with
  | (events, some msg) => (ViewState.errorShown msg, events)
  | (events, none) => (ViewState.previewShown, events)

/-- Mount/DOM-attachment actions; a run that performs none of these has
mounted no partial DOM. -/
def MountEvent.isDomAttach : MountEvent → Bool
  | .injectSfcStyle => true
  | .createAppStep => true
  | .mountAppStep => true
  | _ => false

/-! ## Disposal versus awaited uno-style generation (`VuePreview.tsx`) -/

/-- The per-effect session state of the frontend component: the
`disposed` flag, the `unoStyleEl` local, and the identities of style
nodes currently attached to `document.head`. -/
structure SessionState where
  disposed : Bool
  unoStyleEl : Option Nat
  attachedStyles : List Nat
  deriving DecidableEq, Repr

/-- The effect cleanup (its `return` closure), restricted to the
fields modelled here: set `disposed`, remove the uno style node if the
local holds one. -/
def cleanupSession (s : SessionState) : SessionState :=
  let s1 := { s with disposed := true }
  match s1.unoStyleEl with
  | some id =>
      { s1 with attachedStyles := s1.attachedStyles.erase id, unoStyleEl := none }
  | none => s1

/-- Resumption of `mountPreview` after `await applyUnoStyles(...)`:
`applyUnoStyles` has attached a fresh style node (or produced none when
no CSS was generated) and its result is assigned to `unoStyleEl`; then
`if (disposed && unoStyleEl) { unoStyleEl.remove(); unoStyleEl = null }`. -/
def resumeAfterUnoAwait (s : SessionState) (generated : Option Nat) : SessionState :=
  let s1 := match generated with
    | some id =>
        { s with attachedStyles := s.attachedStyles ++ [id], unoStyleEl := some id }
    | none => { s with unoStyleEl := none }
  if s1.disposed then
    match s1.unoStyleEl with
    | some id =>
        { s1 with attachedStyles := s1.attachedStyles.erase id, unoStyleEl := none }
    | none => s1
  else s1

/-! ## Transport adapter (preview bootstrap module) -/

/-- ASCII whitespace removed by the forgiving-base64 decode behind
`atob`. -/
def isB64Ws (c : Char) : Bool :=
  c = '\t' || c = '\n' || c = '\x0c' || c = '\r' || c = ' '

/-- Value of one base64 alphabet character. -/
def b64Val (c : Char) : Option Nat :=
  if 'A' ≤ c ∧ c ≤ 'Z' then some (c.toNat - 65)
  else if 'a' ≤ c ∧ c ≤ 'z' then some (c.toNat - 97 + 26)
  else if '0' ≤ c ∧ c ≤ '9' then some (c.toNat - 48 + 52)
  else if c = '+' then some 62
  else if c = '/' then some 63
  else none

/-- Drops one trailing `'='` if present. -/
def stripOnePad (cs : List Char) : List Char :=
  match cs.reverse with
  | '=' :: rest => rest.reverse
  | _ => cs

/-- Packs decoded sextets into bytes; a trailing group of two or three
sextets contributes one or two bytes, leftover bits are discarded. -/
def sextetsToBytes : List Nat → List Nat
  | a :: b :: c :: d :: rest =>
      (a * 4 + b / 16) :: ((b % 16) * 16 + c / 4) :: ((c % 4) * 64 + d) ::
        sextetsToBytes rest
  | [a, b] => [a * 4 + b / 16]
  | [a, b, c] => [a * 4 + b / 16, (b % 16) * 16 + c / 4]
  | _ => []

/-- `atob`, as the forgiving-base64 decode: strip ASCII whitespace,
strip up to two trailing padding characters when the length is a
multiple of four, reject a leftover length of one modulo four and any
character outside the alphabet, and pack the sextets into bytes. -/
def atobBytes (s : String) : Except String (List Nat) :=
  let cs := s.data.filter (fun c => !isB64Ws c)
  let cs := if cs.length % 4 = 0 then stripOnePad (stripOnePad cs) else cs
  if cs.length % 4 = 1 then Except.error "InvalidCharacterError"
  else
    match cs.mapM b64Val with
    | some vals => Except.ok (sextetsToBytes vals)
    | none => Except.error "InvalidCharacterError"

/-- The replacement character U+FFFD emitted by a non-fatal
`TextDecoder` for malformed input. -/
def replacementChar : Char := Char.ofNat 0xFFFD

/-- Is this byte a UTF-8 continuation byte? -/
def isContByte (b : Nat) : Bool := 128 ≤ b && b ≤ 191

/-- Fuel-driven core of the lossy UTF-8 decode performed by
`new TextDecoder().decode` (default, non-fatal mode): well-formed
sequences decode to their code point, malformed bytes become
replacement characters and decoding resumes at the next byte that was
not consumed. -/
def utf8DecodeLossyFuel : Nat → List Nat → List Char
  | 0, _ => []
  | _, [] => []
  | fuel + 1, b :: rest =>
    if b < 128 then Char.ofNat b :: utf8DecodeLossyFuel fuel rest
    else if 194 ≤ b && b ≤ 223 then
      match rest with
      | b2 :: rest2 =>
          if isContByte b2 then
            Char.ofNat ((b - 192) * 64 + (b2 - 128)) :: utf8DecodeLossyFuel fuel rest2
          else replacementChar :: utf8DecodeLossyFuel fuel rest
      | [] => [replacementChar]
    else if 224 ≤ b && b ≤ 239 then
      match rest with
      | b2 :: rest2 =>
          if (b = 224 && 160 ≤ b2 && b2 ≤ 191) ||
             (b = 237 && 128 ≤ b2 && b2 ≤ 159) ||
             (b ≠ 224 && b ≠ 237 && isContByte b2) then
            match rest2 with
            | b3 :: rest3 =>
                if isContByte b3 then
                  Char.ofNat ((b - 224) * 4096 + (b2 - 128) * 64 + (b3 - 128)) ::
                    utf8DecodeLossyFuel fuel rest3
                else replacementChar :: utf8DecodeLossyFuel fuel rest2
            | [] => [replacementChar]
          else replacementChar :: utf8DecodeLossyFuel fuel rest
      | [] => [replacementChar]
    else if 240 ≤ b && b ≤ 244 then
      match rest with
      | b2 :: rest2 =>
          if (b = 240 && 144 ≤ b2 && b2 ≤ 191) ||
             (b = 244 && 128 ≤ b2 && b2 ≤ 143) ||
             (b ≠ 240 && b ≠ 244 && isContByte b2) then
            match rest2 with
            | b3 :: rest3 =>
                if isContByte b3 then
                  match rest3 with
                  | b4 :: rest4 =>
                      if isContByte b4 then
                        Char.ofNat ((b - 240) * 262144 + (b2 - 128) * 4096 +
                            (b3 - 128) * 64 + (b4 - 128)) ::
                          utf8DecodeLossyFuel fuel rest4
                      else replacementChar :: utf8DecodeLossyFuel fuel rest3
                  | [] => [replacementChar]
                else replacementChar :: utf8DecodeLossyFuel fuel rest2
            | [] => [replacementChar]
          else replacementChar :: utf8DecodeLossyFuel fuel rest
      | [] => [replacementChar]
    else replacementChar :: utf8DecodeLossyFuel fuel rest

/-- Lossy UTF-8 decode of a byte list (each step consumes at least one
byte, so the byte count is sufficient fuel). -/
def utf8DecodeLossy (bytes : List Nat) : List Char :=
  utf8DecodeLossyFuel bytes.length bytes

/-- Validity of a byte list as UTF-8: decoding it lossily introduces no
replacement character and no replacement character was present as a
legitimate code point. Used only to state that certain inputs are
invalid UTF-8. -/
def isValidUtf8 (bytes : List Nat) : Bool :=
  !(utf8DecodeLossy bytes).contains replacementChar

/-- `decodeBase64` of the bootstrap module:
`new TextDecoder().decode(Uint8Array.from(atob(value), c => c.charCodeAt(0)))`.
The only throwing step is `atob`. -/
def decodeBase64 (value : String) : Except String String :=
  match atobBytes value with
  | Except.error e => Except.error e
  | Except.ok bytes => Except.ok (String.mk (utf8DecodeLossy bytes))

/-- JSON values as produced by `JSON.parse`. Number literals keep their
lexeme: the adapter only ever tests type and truthiness of numbers. -/
inductive Json where
  | null
  | bool (b : Bool)
  | num (lexeme : String)
  | str (s : String)
  | arr (items : List Json)
  | obj (entries : List (String × Json))

/-- Drops leading JSON whitespace. -/
def skipJsonWs (cs : List Char) : List Char :=
  cs.dropWhile (fun c => c = ' ' || c = '\t' || c = '\n' || c = '\r')

/-- Scans a JSON string body up to its closing quote, handling the
escape sequences `JSON.parse` accepts (`\u` hex digits are consumed but
mapped through `Char.ofNat` without surrogate pairing, which the
adapter never relies on). -/
def scanJsonString : Nat → List Char → Except String (String × List Char)
  | 0, _ => Except.error "Unterminated string in JSON"
  | _, [] => Except.error "Unterminated string in JSON"
  | fuel + 1, c :: rest =>
    if c = '"' then Except.ok ("", rest)
    else if c = '\\' then
      match rest with
      | [] => Except.error "Unterminated string in JSON"
      | e :: rest2 =>
          let decoded : Except String (Char × List Char) :=
            if e = '"' then Except.ok ('"', rest2)
            else if e = '\\' then Except.ok ('\\', rest2)
            else if e = '/' then Except.ok ('/', rest2)
            else if e = 'n' then Except.ok ('\n', rest2)
            else if e = 't' then Except.ok ('\t', rest2)
            else if e = 'r' then Except.ok ('\r', rest2)
            else if e = 'b' then Except.ok ('\x08', rest2)
            else if e = 'f' then Except.ok ('\x0c', rest2)
            else if e = 'u' then
              match rest2 with
              | h1 :: h2 :: h3 :: h4 :: rest3 =>
                  if [h1, h2, h3, h4].all (fun h => h.isDigit ||
                      ('a' ≤ h ∧ h ≤ 'f') || ('A' ≤ h ∧ h ≤ 'F')) then
                    let hv : Char → Nat := fun h =>
                      if h.isDigit then h.toNat - 48
                      else if 'a' ≤ h ∧ h ≤ 'f' then h.toNat - 97 + 10
                      else h.toNat - 65 + 10
                    Except.ok (Char.ofNat
                      (hv h1 * 4096 + hv h2 * 256 + hv h3 * 16 + hv h4), rest3)
                  else Except.error "Bad Unicode escape in JSON"
              | _ => Except.error "Bad Unicode escape in JSON"
            else Except.error "Bad escaped character in JSON"
          match decoded with
          | Except.error msg => Except.error msg
          | Except.ok (ch, rest3) =>
              match scanJsonString fuel rest3 with
              | Except.error msg => Except.error msg
              | Except.ok (s, rest4) => Except.ok (String.mk (ch :: s.data), rest4)
    else
      match scanJsonString fuel rest with
      | Except.error msg => Except.error msg
      | Except.ok (s, rest2) => Except.ok (String.mk (c :: s.data), rest2)

/-- Characters that may occur in a JSON number literal. -/
def isNumChar (c : Char) : Bool :=
  c.isDigit || c = '-' || c = '+' || c = '.' || c = 'e' || c = 'E'

/-- Validates a JSON number lexeme: optional minus, an integer part,
optional fraction, optional exponent. -/
def validNumLexeme (cs : List Char) : Bool :=
  let afterSign := if cs.head? = some '-' then cs.tail else cs
  let intPart := afterSign.takeWhile Char.isDigit
  let afterInt := afterSign.dropWhile Char.isDigit
  let okInt := !intPart.isEmpty &&
    (intPart.length = 1 || intPart.head? ≠ some '0')
  let (okFrac, afterFrac) :=
    match afterInt with
    | '.' :: rest => (!(rest.takeWhile Char.isDigit).isEmpty, rest.dropWhile Char.isDigit)
    | other => (true, other)
  let okExp :=
    match afterFrac with
    | [] => true
    | e :: rest =>
        if e = 'e' || e = 'E' then
          let rest2 := if rest.head? = some '+' || rest.head? = some '-'
            then rest.tail else rest
          !rest2.isEmpty && rest2.all Char.isDigit
        else false
  okInt && okFrac && okExp

mutual

/-- Fuel-driven model of `JSON.parse`'s value parser: returns the value
and the unconsumed remainder, or the parse error. -/
def parseJsonValue : Nat → List Char → Except String (Json × List Char)
  | 0, _ => Except.error "Depth limit in JSON"
  | fuel + 1, cs =>
    match skipJsonWs cs with
    | [] => Except.error "Unexpected end of JSON input"
    | 'n' :: 'u' :: 'l' :: 'l' :: rest => Except.ok (Json.null, rest)
    | 't' :: 'r' :: 'u' :: 'e' :: rest => Except.ok (Json.bool true, rest)
    | 'f' :: 'a' :: 'l' :: 's' :: 'e' :: rest => Except.ok (Json.bool false, rest)
    | '"' :: rest =>
        match scanJsonString (rest.length + 1) rest with
        | Except.error msg => Except.error msg
        | Except.ok (s, rest2) => Except.ok (Json.str s, rest2)
    | '[' :: rest =>
        (match skipJsonWs rest with
         | ']' :: rest2 => Except.ok (Json.arr [], rest2)
         | other =>
             match parseJsonItems fuel other with
             | Except.error msg => Except.error msg
             | Except.ok (items, rest2) => Except.ok (Json.arr items, rest2))
    | '{' :: rest =>
        (match skipJsonWs rest with
         | '}' :: rest2 => Except.ok (Json.obj [], rest2)
         | other =>
             match parseJsonMembers fuel other with
             | Except.error msg => Except.error msg
             | Except.ok (entries, rest2) => Except.ok (Json.obj entries, rest2))
    | c :: rest =>
        if c = '-' || c.isDigit then
          let lexeme := c :: rest.takeWhile isNumChar
          if validNumLexeme lexeme then
            Except.ok (Json.num (String.mk lexeme), rest.dropWhile isNumChar)
          else Except.error "Invalid number in JSON"
        else Except.error "Unexpected token in JSON"

/-- Parses the comma-separated items of a non-empty JSON array,
including the closing bracket. -/
def parseJsonItems : Nat → List Char → Except String (List Json × List Char)
  | 0, _ => Except.error "Depth limit in JSON"
  | fuel + 1, cs =>
    match parseJsonValue fuel cs with
    | Except.error msg => Except.error msg
    | Except.ok (v, rest) =>
        match skipJsonWs rest with
        | ']' :: rest2 => Except.ok ([v], rest2)
        | ',' :: rest2 =>
            match parseJsonItems fuel rest2 with
            | Except.error msg => Except.error msg
            | Except.ok (items, rest3) => Except.ok (v :: items, rest3)
        | _ => Except.error "Expected comma or bracket in JSON array"

/-- Parses the comma-separated members of a non-empty JSON object,
including the closing brace. -/
def parseJsonMembers : Nat → List Char → Except String (List (String × Json) × List Char)
  | 0, _ => Except.error "Depth limit in JSON"
  | fuel + 1, cs =>
    match skipJsonWs cs with
    | '"' :: rest =>
        (match scanJsonString (rest.length + 1) rest with
         | Except.error msg => Except.error msg
         | Except.ok (key, rest2) =>
             match skipJsonWs rest2 with
             | ':' :: rest3 =>
                 (match parseJsonValue fuel rest3 with
                  | Except.error msg => Except.error msg
                  | Except.ok (v, rest4) =>
                      match skipJsonWs rest4 with
                      | '}' :: rest5 => Except.ok ([(key, v)], rest5)
                      | ',' :: rest5 =>
                          match parseJsonMembers fuel rest5 with
                          | Except.error msg => Except.error msg
                          | Except.ok (entries, rest6) =>
                              Except.ok ((key, v) :: entries, rest6)
                      | _ => Except.error "Expected comma or brace in JSON object")
             | _ => Except.error "Expected colon in JSON object")
    | _ => Except.error "Expected string key in JSON object"

end

/-- Model of `JSON.parse`: parse one value, then require only
whitespace to remain. -/
def jsonParse (s : String) : Except String Json :=
  match parseJsonValue (s.data.length + 1) s.data with
  | Except.error msg => Except.error msg
  | Except.ok (v, rest) =>
      match skipJsonWs rest with
      | [] => Except.ok v
      | _ => Except.error "Unexpected non-whitespace after JSON value"

/-- Is a JSON number lexeme the number zero? (A JSON number is zero
exactly when all mantissa digits are `0`.) -/
def numLexemeIsZero (lexeme : String) : Bool :=
  let mantissa := lexeme.data.takeWhile (fun c => c ≠ 'e' ∧ c ≠ 'E')
  mantissa.all (fun c => !c.isDigit || c = '0')

/-- JS falsiness of a `JSON.parse` result (`!parsed`): `null`, `false`,
`0` and the empty string are falsy; arrays and objects never are. -/
def Json.isFalsy : Json → Bool
  | .null => true
  | .bool b => !b
  | .num lexeme => numLexemeIsZero lexeme
  | .str s => s = ""
  | .arr _ => false
  | .obj _ => false

/-- JS `typeof parsed === 'object'`: true for `null`, arrays and
objects. -/
def Json.isObjectType : Json → Bool
  | .null => true
  | .arr _ => true
  | .obj _ => true
  | _ => false

/-- `Array.isArray(parsed)`. -/
def Json.isArrayValue : Json → Bool
  | .arr _ => true
  | _ => false

/-- `parseComponentsPayload(payload)`: base64-decode, `JSON.parse`, and
reject falsy, non-object or array results; any throw from the decode
pipeline is caught and reported as `null`. The accepted object's
entries are returned as-is (the TS cast to `Record<string, string>`
performs no value validation). -/
def parseComponentsPayload (payload : String) : Option (List (String × Json)) :=
  match decodeBase64 payload with
  | Except.error _ => none
  | Except.ok json =>
      match jsonParse json with
      | Except.error _ => none
      | Except.ok parsed =>
          if parsed.isFalsy then none
          else if !parsed.isObjectType then none
          else if parsed.isArrayValue then none
          else
            match parsed with
            | Json.obj entries => some entries
            | _ => none

/-- First value bound to a key in a query-parameter list
(`URLSearchParams.get`, `null` when absent). -/
def paramsGet : List (String × String) → String → Option String
  | [], _ => none
  | (k, v) :: rest, key => if k = key then some v else paramsGet rest key

/-- `getCodeFromUrl()`: read the `code` query parameter (absent or
empty is "no code"), then base64-decode it, reporting a decode throw as
`null`. -/
def getCodeFromUrl (params : List (String × String)) : Option String :=
  match paramsGet params "code" with
  | none => none
  | some codeBase64 =>
      if codeBase64 = "" then none
      else
        match decodeBase64 codeBase64 with
        | Except.error _ => none
        | Except.ok code => some code

/-- `getComponentsFromUrl()`: read the `components` query parameter and
delegate to `parseComponentsPayload`. -/
def getComponentsFromUrl (params : List (String × String)) :
    Option (List (String × Json)) :=
  match paramsGet params "components" with
  | none => none
  | some componentsBase64 =>
      if componentsBase64 = "" then none
      else parseComponentsPayload componentsBase64

/-- `normalizeComponents(payload)`: falsy payloads give `null`, string
payloads are decoded like the query form, non-array objects pass
through, everything else gives `null`. `none` models an absent
(`undefined`) field. -/
def normalizeComponents (payload : Option Json) : Option (List (String × Json)) :=
  match payload with
  | none => none
  | some v =>
      if v.isFalsy then none
      else
        match v with
        | Json.str s => parseComponentsPayload s
        | Json.arr _ => none
        | Json.obj entries => some entries
        | _ => none

/-- The fields of an inbound message envelope the listener reads:
`event.data.type`, `event.data.code` and `event.data.components`.
`none` models an absent field; a `type` of a non-string value can never
equal the string the listener compares against, so `type` is kept as
the field's string value when it has one. -/
structure MessageData where
  msgType : Option String
  code : Option String
  components : Option Json

/-- A render request forwarded to `renderVueComponent` by the
listener. -/
structure ForwardedRender where
  code : String
  components : Option (List (String × Json))

/-- The `message` event listener of the bootstrap module: accept only
envelopes whose `type` is exactly `"preview-code"` and whose `code` is
truthy (a non-empty string), normalize the `components` field, ensure
the mount element exists inside the container (recreating it if
needed), and forward the render request. Returns the forwarded request
or `none` when the event is ignored. -/
def handleMessage (eventData : Option MessageData) (containerPresent : Bool) :
    Option ForwardedRender :=
  match eventData with
  | none => none
  | some d =>
      if d.msgType = some "preview-code" then
        match d.code with
        | none => none
        | some c =>
            if c = "" then none
            else if !containerPresent then none
            else some ⟨c, normalizeComponents d.components⟩
      else none

/-- The disposal prefix every `renderVueComponent` call performs: the
actions of `cleanupPreview` on the prior state. -/
def disposeEvents (st : PreviewState) : List RenderEvent :=
  (cleanupPreview st true).2

/-- The post-disposal actions of `renderVueComponent`: either the
empty-content throw, or parse, app creation and mount. -/
def buildEvents (code : String) (freshId : Nat) : List RenderEvent :=
  if (trimChars code.data).isEmpty then [RenderEvent.throwNoContent]
  else [RenderEvent.parseDoc, RenderEvent.createApp freshId, RenderEvent.mountApp freshId]

/-! ## Claims -/

/-- Claim C1, counterexample. For the document with global defaults
`a: 1, b: 2` and a later per-slide frontmatter block `b: 3`, the slide
following the per-slide block is emitted with frontmatter exactly
`b: 3` — the merged mapping `a: 1, b: 3` the claim requires appears on
no emitted slide. -/
theorem parseSlidevRegex_no_merge_counterexample :
    (parseSlidevRegex "---\na: 1\nb: 2\n---\nS1\n---\nb: 3\n---\nS2").map
        Slide.frontmatter =
      [Yaml.map [], Yaml.map [("a", .int 1), ("b", .int 2)],
        Yaml.map [("b", .int 3)]] ∧
    Yaml.map [("a", .int 1), ("b", .int 3)] ∉
      ((parseSlidevRegex "---\na: 1\nb: 2\n---\nS1\n---\nb: 3\n---\nS2").map
        Slide.frontmatter) := by
  decide

/-- Claim C1, amended: a frontmatter-classified block replaces the
pending frontmatter wholesale — the slides emitted after it do not
depend on the previously pending mapping, and no key-wise merge with
document defaults happens; in the claim's scenario the slide after the
per-slide block `b: 3` carries frontmatter exactly `b: 3`. -/
theorem frontmatter_block_replaces_pending :
    (∀ (part : String) (doc pending : Yaml) (rest : List String),
      classifyPart part = some doc →
      refinedLoop (part :: rest) pending = refinedLoop rest doc) ∧
    (parseSlidevRegex "---\na: 1\nb: 2\n---\nS1\n---\nb: 3\n---\nS2").map
        Slide.frontmatter =
      [Yaml.map [], Yaml.map [("a", .int 1), ("b", .int 2)],
        Yaml.map [("b", .int 3)]] := by
  constructor
  · intro part doc pending rest h
    simp [refinedLoop, h]
  · decide

/-- Witness for the amended C1 theorem at the claim's own blocks: the
per-slide block `b: 3` makes the loop continue with exactly that
mapping, discarding the pending defaults `a: 1, b: 2`. -/
theorem frontmatter_block_replaces_pending_witness :
    refinedLoop ["b: 3", "S2"] (Yaml.map [("a", .int 1), ("b", .int 2)]) =
      refinedLoop ["S2"] (Yaml.map [("b", .int 3)]) :=
  frontmatter_block_replaces_pending.1 "b: 3" (Yaml.map [("b", .int 3)])
    (Yaml.map [("a", .int 1), ("b", .int 2)]) ["S2"] (by decide)

/-- Claim C2: the document consisting of a separator line followed by
`Hello` splits into the blocks `""` and `"Hello"`; only one of them is
a non-whitespace content block, yet the splitter emits two slide
records — the all-whitespace leading block produces a slide with empty
content, contradicting the claim (and the skip of empty parts the
function's first, discarded loop performs). -/
theorem parseSlidevRegex_counts_whitespace_block :
    parseSlidevRegex "---\nHello" =
      [⟨Yaml.map [], ""⟩, ⟨Yaml.map [], "Hello"⟩] ∧
    contentBlockCount "---\nHello" = 1 ∧
    (parseSlidevRegex "---\nHello").length ≠ contentBlockCount "---\nHello" := by
  decide

/-- Claim C3: splitting the exact document of Scenario B yields two
slide records, not one — an extra record with empty content and empty
frontmatter precedes the expected `Hello` slide. -/
theorem parseSlidevRegex_scenarioB :
    parseSlidevRegex "---\ntheme: dark\n---\nHello" =
      [⟨Yaml.map [], ""⟩, ⟨Yaml.map [("theme", .str "dark")], "Hello"⟩] ∧
    (parseSlidevRegex "---\ntheme: dark\n---\nHello").length = 2 := by
  decide

/-- Claim C4: from any prior state, `renderVueComponent` performs the
disposal actions of `cleanupPreview` — unmounting the prior app
instance if one is held, and clearing the mount element — strictly
before any parsing, app creation or mounting of the new payload; after
the call, the prior app instance is no longer the active app, so at
most one app is alive per mount target. -/
theorem renderVueComponent_disposes_before_build
    (st : PreviewState) (code : String) (freshId : Nat)
    (hfresh : st.app ≠ some freshId) :
    (renderVueComponent code st freshId).2.1 =
      disposeEvents st ++ buildEvents code freshId ∧
    (∀ e ∈ disposeEvents st, e.isDispose = true) ∧
    (∀ e ∈ buildEvents code freshId, e.isDispose = false) ∧
    RenderEvent.clearMountEl ∈ disposeEvents st ∧
    (∀ oldId, st.app = some oldId →
      RenderEvent.unmountApp oldId ∈ disposeEvents st ∧
      (renderVueComponent code st freshId).1.app ≠ some oldId) := by
  refine ⟨?_, ?_, ?_, ?_, ?_⟩
  · cases hst : st.app <;>
      by_cases hcode : (trimChars code.data).isEmpty <;>
      simp [renderVueComponent, disposeEvents, buildEvents, cleanupPreview, hst, hcode]
  · intro e he
    cases hst : st.app <;>
      simp [disposeEvents, cleanupPreview, hst] at he <;>
      rcases he with rfl | rfl <;> rfl
  · intro e he
    by_cases hcode : (trimChars code.data).isEmpty <;>
      simp [buildEvents, hcode] at he
    · subst he; rfl
    · rcases he with rfl | rfl | rfl <;> rfl
  · cases hst : st.app <;> simp [disposeEvents, cleanupPreview, hst]
  · intro oldId hold
    refine ⟨by simp [disposeEvents, cleanupPreview, hold], ?_⟩
    by_cases hcode : (trimChars code.data).isEmpty <;>
      simp [renderVueComponent, cleanupPreview, hold, hcode]
    intro h
    exact hfresh (by rw [hold, h])

/-- Witness for C4: rendering non-blank content with a fresh app
identity from a state holding app `0` performs the disposal prefix
(unmount of app `0`, clearing the mount element) before the build
actions. -/
theorem renderVueComponent_disposes_before_build_witness :
    (renderVueComponent "Hi" ⟨some 0⟩ 1).2.1 =
      disposeEvents ⟨some 0⟩ ++ buildEvents "Hi" 1 ∧
    RenderEvent.clearMountEl ∈ disposeEvents ⟨some 0⟩ ∧
    (renderVueComponent "Hi" ⟨some 0⟩ 1).1.app ≠ some 0 := by
  have h := renderVueComponent_disposes_before_build ⟨some 0⟩ "Hi" 1 (by decide)
  exact ⟨h.1, h.2.2.2.1, (h.2.2.2.2 0 rfl).2⟩

/-- Claim C5: for every component source whose parsed descriptor has no
template section, `mountPreview` throws the fatal compile error
`"Missing <template> block."` before performing any action, the `run`
wrapper catches it — totality of `runEffect` embeds "no exception
escapes the component boundary" — and the component shows the error
message with no DOM-attaching action performed (no partial mount). -/
theorem missing_template_is_fatal_compile_error
    (d : SFCDescriptor) (oc : CompileOutcome) (h : d.template = none) :
    mountPreview d oc = ([], some "Missing <template> block.") ∧
    runEffect d oc = (ViewState.errorShown "Missing <template> block.", []) ∧
    (∀ e ∈ (runEffect d oc).2, e.isDomAttach = false) := by
  have hm : mountPreview d oc = ([], some "Missing <template> block.") := by
    simp [mountPreview, h]
  refine ⟨hm, ?_, ?_⟩
  · simp [runEffect, hm]
  · intro e he
    simp [runEffect, hm] at he

/-- Witness for C5 at the template-less descriptor with no script, no
styles and clean external compiler outcomes. -/
theorem missing_template_is_fatal_compile_error_witness :
    runEffect ⟨none, none, none, []⟩ ⟨none, []⟩ =
      (ViewState.errorShown "Missing <template> block.", []) :=
  (missing_template_is_fatal_compile_error ⟨none, none, none, []⟩ ⟨none, []⟩ rfl).2.1

/-- Claim C6, counterexample: an envelope of type `"render"` with the
non-empty code `"Hello"` is ignored by the message listener — nothing
is forwarded to be rendered — because the listener compares the type
against the single literal `"preview-code"`. -/
theorem handleMessage_ignores_render_type :
    handleMessage (some ⟨some "render", some "Hello", none⟩) true = none ∧
    "Hello" ≠ "" := by
  exact ⟨rfl, by decide⟩

/-- Claim C6, amended: only envelopes whose type field is exactly
`"preview-code"` are accepted; for every such envelope with a non-empty
code string (and the container element present), the listener forwards
the code together with the normalized components field to be
rendered. -/
theorem handleMessage_accepts_preview_code
    (c : String) (comps : Option Json) (hc : c ≠ "") :
    handleMessage (some ⟨some "preview-code", some c, comps⟩) true =
      some ⟨c, normalizeComponents comps⟩ ∧
    (∀ t, t ≠ "preview-code" →
      handleMessage (some ⟨some t, some c, comps⟩) true = none) := by
  constructor
  · simp [handleMessage, hc]
  · intro t ht
    simp [handleMessage, ht]

/-- Witness for the amended C6 theorem: the envelope
`type = "preview-code"`, `code = "Hello"`, no components field, is
forwarded as a render request for `"Hello"`. -/
theorem handleMessage_accepts_preview_code_witness :
    handleMessage (some ⟨some "preview-code", some "Hello", none⟩) true =
      some ⟨"Hello", none⟩ :=
  (handleMessage_accepts_preview_code "Hello" none (by decide)).1

/-- Claim C7, counterexample: the query parameter `code = "/w=="`
decodes (via `atob`) to the single byte `0xFF`, which is not valid
UTF-8, yet `getCodeFromUrl` returns the replacement-character string
rather than a null result: the non-fatal `TextDecoder` replaces
malformed sequences instead of reporting a decode failure. -/
theorem getCodeFromUrl_invalid_utf8_not_null :
    atobBytes "/w==" = Except.ok [255] ∧
    isValidUtf8 [255] = false ∧
    getCodeFromUrl [("code", "/w==")] = some (String.mk [replacementChar]) ∧
    some (String.mk [replacementChar]) ≠ (none : Option String) := by
  refine ⟨rfl, rfl, rfl, by simp⟩

/-- Claim C7, amended: both adapter entry points are total functions
into an option type — no exception crosses the adapter boundary — and
every failure of a throwing pipeline step is reported as a null result:
an invalid-base64 `code` parameter makes `getCodeFromUrl` return null,
and an invalid-base64 payload, a payload whose decoded text is not
valid JSON, or one whose JSON value is falsy, not of object type, or an
array, makes `parseComponentsPayload` return null. (Invalid UTF-8 alone
is not reported: the decoder replaces malformed bytes, see the
counterexample.) -/
theorem adapter_decode_failures_are_null :
    (∀ (payload : String) (e : String), atobBytes payload = Except.error e →
      parseComponentsPayload payload = none) ∧
    (∀ (params : List (String × String)) (b64 e : String),
      paramsGet params "code" = some b64 → atobBytes b64 = Except.error e →
      getCodeFromUrl params = none) ∧
    (∀ (payload j : String) (e : String), decodeBase64 payload = Except.ok j →
      jsonParse j = Except.error e → parseComponentsPayload payload = none) ∧
    (∀ (payload j : String) (v : Json), decodeBase64 payload = Except.ok j →
      jsonParse j = Except.ok v →
      (v.isFalsy || !v.isObjectType || v.isArrayValue) = true →
      parseComponentsPayload payload = none) := by
  refine ⟨?_, ?_, ?_, ?_⟩
  · intro payload e h
    simp [parseComponentsPayload, decodeBase64, h]
  · intro params b64 e hp h
    by_cases hb : b64 = ""
    · simp [getCodeFromUrl, hp, hb]
    · simp [getCodeFromUrl, decodeBase64, hp, hb, h]
  · intro payload j e hd hj
    simp [parseComponentsPayload, hd, hj]
  · intro payload j v hd hj hv
    by_cases hf : v.isFalsy = true
    · simp [parseComponentsPayload, hd, hj, hf]
    · by_cases ho : v.isObjectType = false
      · simp [parseComponentsPayload, hd, hj, ho]
      · have ha : v.isArrayValue = true := by
          rcases hb : v.isFalsy <;> rcases hc : v.isObjectType <;>
            simp [hb, hc] at hv hf ho ⊢
          exact hv
        cases v <;> simp_all [parseComponentsPayload, hd, hj,
          Json.isArrayValue, Json.isFalsy, Json.isObjectType]

/-- Witness for the amended C7 theorem: invalid base64 (`"!!!"`) makes
both entry points return null; a payload decoding to the non-JSON text
`"hi"` and a payload decoding to the JSON array `[1]` make
`parseComponentsPayload` return null. -/
theorem adapter_decode_failures_are_null_witness :
    parseComponentsPayload "!!!" = none ∧
    getCodeFromUrl [("code", "!!!")] = none ∧
    parseComponentsPayload "aGk=" = none ∧
    parseComponentsPayload "WzFd" = none := by
  refine ⟨?_, ?_, ?_, ?_⟩
  · exact adapter_decode_failures_are_null.1 "!!!" "InvalidCharacterError" rfl
  · exact adapter_decode_failures_are_null.2.1 [("code", "!!!")] "!!!"
      "InvalidCharacterError" rfl rfl
  · exact adapter_decode_failures_are_null.2.2.1 "aGk=" "hi"
      "Unexpected token in JSON" rfl rfl
  · exact adapter_decode_failures_are_null.2.2.2 "WzFd" "[1]"
      (Json.arr [Json.num "1"]) rfl rfl rfl

/-- Claim C8: from any well-formed scheduler state, any number of
observer-callback triggers (each calling `scheduleAdaptiveScale`)
preserves well-formedness, leaves at most one registered
animation-frame callback pending, and runs no rescale synchronously
(the applied count is unchanged); moreover a single trigger from a
state with a pending callback cancels that callback and re-schedules a
fresh one. -/
theorem scheduleAdaptiveScale_coalesces
    (s : SchedState) (hs : SchedInv s) :
    (∀ n, SchedInv (triggerN n s) ∧
      (triggerN n s).registered.length ≤ 1 ∧
      (triggerN n s).applied = s.applied) ∧
    (scheduleAdaptiveScale s).pendingFrame = some s.nextId ∧
    (∀ id, s.pendingFrame = some id →
      id ∉ (scheduleAdaptiveScale s).registered ∧
      (scheduleAdaptiveScale s).pendingFrame ≠ some id) := by
  obtain ⟨hreg, hlt⟩ := hs
  have hstep : ∀ t : SchedState, SchedInv t →
      SchedInv (scheduleAdaptiveScale t) ∧
      (scheduleAdaptiveScale t).applied = t.applied := by
    intro t ht
    obtain ⟨treg, tlt⟩ := ht
    cases hp : t.pendingFrame with
    | none =>
        refine ⟨⟨?_, ?_⟩, ?_⟩ <;>
          simp_all [scheduleAdaptiveScale, hp, treg]
    | some id =>
        rw [hp] at treg
        refine ⟨⟨?_, ?_⟩, ?_⟩ <;>
          simp_all [scheduleAdaptiveScale, hp, treg, List.erase_cons_head]
  have hiter : ∀ n t, SchedInv t →
      SchedInv (triggerN n t) ∧ (triggerN n t).applied = t.applied := by
    intro n
    induction n with
    | zero => intro t ht; exact ⟨ht, rfl⟩
    | succ n ih =>
        intro t ht
        obtain ⟨h1, h2⟩ := hstep t ht
        obtain ⟨h3, h4⟩ := ih (scheduleAdaptiveScale t) h1
        exact ⟨h3, by simp [triggerN, h4, h2]⟩
  refine ⟨?_, ?_, ?_⟩
  · intro n
    obtain ⟨h1, h2⟩ := hiter n s ⟨hreg, hlt⟩
    refine ⟨h1, ?_, h2⟩
    obtain ⟨r1, _⟩ := h1
    cases hp : (triggerN n s).pendingFrame <;> rw [hp] at r1 <;> simp [r1]
  · cases hp : s.pendingFrame <;> simp [scheduleAdaptiveScale, hp]
  · intro id hid
    have hlt2 : id < s.nextId := hlt id (by rw [hreg, hid]; simp)
    constructor
    · simp [scheduleAdaptiveScale, hid, hreg, List.erase_cons_head]
      omega
    · simp [scheduleAdaptiveScale, hid, hreg, List.erase_cons_head]
      omega

/-- Witness for C8 at the idle initial scheduler state: three
consecutive triggers leave exactly one registered callback and apply no
rescale synchronously. -/
theorem scheduleAdaptiveScale_coalesces_witness :
    (triggerN 3 ⟨none, [], 0, 0⟩).registered.length ≤ 1 ∧
    (triggerN 3 ⟨none, [], 0, 0⟩).applied = 0 := by
  have h := scheduleAdaptiveScale_coalesces ⟨none, [], 0, 0⟩ (by
    constructor
    · rfl
    · intro id hid; simp at hid)
  exact ⟨(h.1 3).2.1, (h.1 3).2.2⟩

/-- Claim C9, counterexample: the frontend `updateScale` path scales a
3840×2160 container around the fixed 1920×1080 content to factor 2 —
uniform, but exceeding 1.0 and different from the 1-clamped minimum the
claim prescribes for every scale target. -/
theorem updateScale_exceeds_one_counterexample :
    updateScale 3840 2160 = some (2, 2) ∧
    ¬ ((2 : ℚ) ≤ 1) ∧
    (2 : ℚ) ≠ min 1 (min (3840 / SLIDE_WIDTH) (2160 / SLIDE_HEIGHT)) := by
  refine ⟨?_, by norm_num, ?_⟩
  · rw [updateScale]
    norm_num [SLIDE_WIDTH, SLIDE_HEIGHT]
  · norm_num [SLIDE_WIDTH, SLIDE_HEIGHT]

/-- Claim C9, amended: the adaptive-scale path applies, to both axes,
the single factor `min(1, availableWidth/contentWidth,
availableHeight/contentHeight)`, which never exceeds 1.0; the frontend
`updateScale` path applies, to both axes, the single factor
`min(width/1920, height/1080)` without the clamp against 1, so it can
exceed 1.0 on containers larger than the slide design size. -/
theorem rescale_factors
    (aw ah cw ch w h : ℚ)
    (haw : 0 < aw) (hah : 0 < ah) (hcw : 0 < cw) (hch : 0 < ch)
    (hw : 0 < w) (hh : 0 < h) :
    applyAdaptiveScale aw ah cw ch =
      some (min 1 (min (aw / cw) (ah / ch)), min 1 (min (aw / cw) (ah / ch))) ∧
    min 1 (min (aw / cw) (ah / ch)) ≤ 1 ∧
    updateScale w h =
      some (min (w / SLIDE_WIDTH) (h / SLIDE_HEIGHT),
        min (w / SLIDE_WIDTH) (h / SLIDE_HEIGHT)) := by
  refine ⟨?_, min_le_left _ _, ?_⟩
  · rw [applyAdaptiveScale]
    rw [if_neg (by push_neg; exact ⟨ne_of_gt haw, ne_of_gt hah⟩)]
    rw [if_neg (by push_neg; exact ⟨ne_of_gt hcw, ne_of_gt hch⟩)]
  · rw [updateScale]
    rw [if_neg (by push_neg; exact ⟨ne_of_gt hw, ne_of_gt hh⟩)]

/-- Witness for the amended C9 theorem at a 100×50 container around
200×100 content and a 100×100 frontend container. -/
theorem rescale_factors_witness :
    applyAdaptiveScale 100 50 200 100 =
      some (min 1 (min ((100 : ℚ) / 200) ((50 : ℚ) / 100)),
        min 1 (min ((100 : ℚ) / 200) ((50 : ℚ) / 100))) ∧
    min 1 (min ((100 : ℚ) / 200) ((50 : ℚ) / 100)) ≤ 1 := by
  have h := rescale_factors 100 50 200 100 100 100 (by norm_num) (by norm_num)
    (by norm_num) (by norm_num) (by norm_num) (by norm_num)
  exact ⟨h.1, h.2.1⟩

/-- Claim C10: if the effect cleanup runs while the utility-CSS
generation is still awaited (the `unoStyleEl` local is still unset),
then once the await resolves and attaches its fresh style node, the
node is removed immediately in the same continuation: the set of
attached style nodes returns to what it was, the node does not remain
attached, and the `unoStyleEl` local ends cleared. -/
theorem disposed_session_removes_uno_style
    (s : SessionState) (id : Nat)
    (hawait : s.unoStyleEl = none) (hfresh : id ∉ s.attachedStyles) :
    (resumeAfterUnoAwait (cleanupSession s) (some id)).attachedStyles =
      s.attachedStyles ∧
    id ∉ (resumeAfterUnoAwait (cleanupSession s) (some id)).attachedStyles ∧
    (resumeAfterUnoAwait (cleanupSession s) (some id)).unoStyleEl = none ∧
    (cleanupSession s).disposed = true := by
  have hclean : cleanupSession s =
      { s with disposed := true, unoStyleEl := none } := by
    simp [cleanupSession, hawait]
  have herase : (s.attachedStyles ++ [id]).erase id = s.attachedStyles := by
    rw [List.erase_append_right _ hfresh]
    simp [List.erase_cons_head]
  refine ⟨?_, ?_, ?_, by simp [hclean]⟩
  · simp [resumeAfterUnoAwait, hclean, herase]
  · simp [resumeAfterUnoAwait, hclean, herase, hfresh]
  · simp [resumeAfterUnoAwait, hclean]

/-- Witness for C10: a mid-await session holding one unrelated style
node, disposed, then resumed with the fresh node `7`. -/
theorem disposed_session_removes_uno_style_witness :
    (resumeAfterUnoAwait (cleanupSession ⟨false, none, [5]⟩) (some 7)).attachedStyles =
      [5] ∧
    (resumeAfterUnoAwait (cleanupSession ⟨false, none, [5]⟩) (some 7)).unoStyleEl =
      none := by
  have h := disposed_session_removes_uno_style ⟨false, none, [5]⟩ 7 rfl (by decide)
  exact ⟨h.1, h.2.2.1⟩
